import Mathlib

/-!
Verification of the `ai-bio-llm` pipeline repository.

This file gives a shallow embedding, in Lean 4, of the orchestration,
checkpointing, retry, file-resolution and data-loading logic of the
repository (main.py, src/brain/brain.py, src/bio_agents/answer/answer_agent.py,
src/bio_agents/data_analyst/*), and proves or refutes the specification
claims about that logic.

Strings are modelled as `List Char` (`Str`), filesystems as association
lists from path strings to content strings, and every external LLM call as
an oracle value of type `Except Str _` supplied in the environment.
-/

set_option maxRecDepth 10000

/-- Python strings are modelled as lists of characters. -/
abbrev Str := List Char

/-- `str.lower()`. -/
def lowerStr (s : Str) : Str := s.map Char.toLower

/-- Boolean list-prefix test (used to model `str.startswith`). -/
def isPrefixB : Str → Str → Bool
  | [], _ => true
  | _ :: _, [] => false
  | a :: as, b :: bs => a == b && isPrefixB as bs

/-- Boolean substring test (models Python's `needle in haystack`). -/
def isSubstrB (needle : Str) : Str → Bool
  | [] => needle.isEmpty
  | c :: rest => isPrefixB needle (c :: rest) || isSubstrB needle rest

/-- A word character in the sense of the regex `\w` (ASCII fragment). -/
def isWordChar (c : Char) : Bool := c.isAlphanum || c == '_'

/-- Helper of `wordTokens`: accumulates the current run of word characters
(in reverse) while scanning the string. -/
def wordTokensAux : Str → Str → List Str
  | [], cur => if cur.isEmpty then [] else [cur.reverse]
  | c :: rest, cur =>
    if isWordChar c then wordTokensAux rest (c :: cur)
    else if cur.isEmpty then wordTokensAux rest []
    else cur.reverse :: wordTokensAux rest []

/-- `re.findall(r'\w+', s)`: the maximal runs of word characters in `s`. -/
def wordTokens (s : Str) : List Str := wordTokensAux s []

/-- Python `str.strip()`: remove leading and trailing whitespace. -/
def stripStr (s : Str) : Str :=
  ((s.dropWhile Char.isWhitespace).reverse.dropWhile Char.isWhitespace).reverse

/-- Helper of `splitComma`: splits at every comma, accumulating the current
piece in reverse. -/
def splitCommaAux : Str → Str → List Str
  | [], cur => [cur.reverse]
  | c :: rest, cur =>
    if c = ',' then cur.reverse :: splitCommaAux rest []
    else splitCommaAux rest (c :: cur)

/-- Python `s.split(',')`. -/
def splitComma (s : Str) : List Str := splitCommaAux s []

/-- First-match lookup in an association list; models lookup in a Python
dict whose keys are unique (dict iteration order is insertion order, which
the list order represents). -/
def alistLookup {α : Type} (m : List (Str × α)) (k : Str) : Option α :=
  match m with
  | [] => none
  | (k2, v) :: t => if k2 = k then some v else alistLookup t k

/-- A filesystem path as seen by the resolver: its full string form
(`str(path)`) and its final component (`path.name`). -/
structure PyPath where
  full : Str
  fname : Str
deriving DecidableEq, Repr

/-- The index built by `FileResolver._build_file_index`:
`by_name` maps lower-cased filenames to the paths carrying that name,
`by_folder` maps folder names to the paths directly inside that folder,
`by_pattern` lists every indexed file. -/
structure FileIndex where
  by_name : List (Str × List PyPath)
  by_folder : List (Str × List PyPath)
  by_pattern : List PyPath
deriving Repr

/-- One resolved reference, as produced by `FileResolver`:
a dict `{'path': ..., 'name': ..., 'match_type': ...}`. -/
structure ResolvedFile where
  path : Str
  name : Str
  match_type : Str
deriving DecidableEq, Repr

/-- `match_type` value for a direct filename hit. -/
def exactMT : Str := ("exact").toList

/-- `match_type` value for a `Q1.`-`Q5.`-prefixed filename hit. -/
def exactPrefixedMT : Str := ("exact_prefixed").toList

/-- `match_type` value for a keyword folder hit. -/
def folderKeywordMT : Str := ("folder_keyword").toList

/-- `match_type` value for a normalized folder hit. -/
def folderNormalizedMT : Str := ("folder_normalized").toList

/-- `match_type` value for a fuzzy path hit. -/
def patternMT : Str := ("pattern").toList

/-- Builds the result dict for one matched path. -/
def mkResolved (mt : Str) (p : PyPath) : ResolvedFile :=
  { path := p.full, name := p.fname, match_type := mt }

/-- The fixed prefixes tried by `FileResolver._match_exact`. -/
def qPrefixes : List Str :=
  [("Q1.").toList, ("Q2.").toList, ("Q3.").toList, ("Q4.").toList, ("Q5.").toList]

/-- `FileResolver._match_exact`: direct lower-cased lookup in `by_name`;
if that yields nothing, each of the `Q1.`..`Q5.` prefixes is tried in
order and every hit is appended. -/
def matchExact (idx : FileIndex) (ref : Str) : List ResolvedFile :=
  let direct :=
    match alistLookup idx.by_name (lowerStr ref) with
    | some paths => paths.map (mkResolved exactMT)
    | none => []
  if direct.isEmpty then
    (qPrefixes.map (fun pre =>
      match alistLookup idx.by_name (lowerStr (pre ++ ref)) with
      | some paths => paths.map (mkResolved exactPrefixedMT)
      | none => [])).flatten
  else direct

/-- The keyword loop of `FileResolver._match_folder` (strategy 1): scan the
folders in index order; a folder whose lower-cased name contains every
keyword as a substring contributes all its paths, and a non-empty
contribution is returned immediately (short-circuit). -/
def folderKeywordScan (folders : List (Str × List PyPath)) (kws : List Str) :
    List ResolvedFile :=
  match folders with
  | [] => []
  | (fname, paths) :: rest =>
    let hit :=
      if kws.all (fun kw => isSubstrB kw (lowerStr fname)) then
        paths.map (mkResolved folderKeywordMT)
      else []
    if hit.isEmpty then folderKeywordScan rest kws else hit

/-- `ref.lower().replace(' ', '.').replace('_', '.')`. -/
def normalizeRef (s : Str) : Str :=
  (lowerStr s).map (fun c => if c = ' ' || c = '_' then '.' else c)

/-- The normalized fallback of `FileResolver._match_folder` (strategy 2):
every folder passing the bidirectional normalized substring test
contributes all its paths (no short-circuit). -/
def folderNormalizedScan (folders : List (Str × List PyPath)) (refNorm : Str) :
    List ResolvedFile :=
  (folders.map (fun fp =>
    let folderNorm := normalizeRef fp.1
    if isSubstrB refNorm folderNorm || isSubstrB folderNorm refNorm then
      fp.2.map (mkResolved folderNormalizedMT)
    else [])).flatten

/-- `FileResolver._match_folder`. -/
def matchFolder (idx : FileIndex) (ref : Str) : List ResolvedFile :=
  let kws := wordTokens (lowerStr ref)
  if kws.isEmpty then []
  else
    let r1 := folderKeywordScan idx.by_folder kws
    if r1.isEmpty then folderNormalizedScan idx.by_folder (normalizeRef ref)
    else r1

/-- `FileResolver._match_pattern`: every indexed file whose full lower-cased
path contains all keywords. -/
def matchPatternB (idx : FileIndex) (ref : Str) : List ResolvedFile :=
  let kws := wordTokens (lowerStr ref)
  if kws.isEmpty then []
  else
    idx.by_pattern.filterMap (fun p =>
      if kws.all (fun kw => isSubstrB kw (lowerStr p.full)) then
        some (mkResolved patternMT p)
      else none)

/-- `FileResolver._resolve_single`: exact, then folder, then fuzzy; the
first non-empty strategy result wins. -/
def resolveSingle (idx : FileIndex) (ref : Str) : List ResolvedFile :=
  let e := matchExact idx ref
  if !e.isEmpty then e
  else
    let f := matchFolder idx ref
    if !f.isEmpty then f
    else matchPatternB idx ref

/-! ### DataLoader (src/bio_agents/data_analyst/data_utils.py) -/

/-- A delimited (CSV/TSV) source file: the header line's cells and the data
rows' cells, one entry per physical line.  The physical file therefore has
`1 + rows.length` lines. -/
structure DelimFile where
  header : List Str
  rows : List (List Str)
deriving Repr

/-- `DataLoader.max_sample_rows` default. -/
def defaultMaxSampleRows : Nat := 1000

/-- `DataLoader._count_total_rows` for the delimited formats: the physical
line count minus one for the header. -/
def countTotalRowsDelim (f : DelimFile) : Int :=
  (1 + f.rows.length : Int) - 1

/-- The data rows materialised by `pd.read_csv(..., nrows=n)`: the first
`n` data rows of the file. -/
def loadDelimRows (nRows : Nat) (f : DelimFile) : List (List Str) :=
  f.rows.take nRows

/-- The metadata dict assembled at the end of `DataLoader.load_file`
(the fields the claims are about). -/
structure LoadMeta where
  total_rows : Int
  loaded_rows : Nat
  is_sampled : Bool
deriving DecidableEq, Repr

/-- `DataLoader.load_file` on a delimited file with `sample=True` and
`n_rows=None`: rows are capped at `maxSampleRows`, the total row count is
the cheap line scan, and
`is_sampled = len(df) < total_rows if total_rows else False`. -/
def loadDelimMeta (maxSampleRows : Nat) (f : DelimFile) : LoadMeta :=
  let df := loadDelimRows maxSampleRows f
  let total := countTotalRowsDelim f
  { total_rows := total
    loaded_rows := df.length
    is_sampled := if total ≠ 0 then decide ((df.length : Int) < total) else false }

/-- Whether one textual cell parses as a number.  This models the numeric
fragment of pandas' cell parsing restricted to unsigned integer literals,
which is all the claims need: a digit string is a number, a string with a
non-digit character is not. -/
def cellIsNumeric (s : Str) : Bool := !s.isEmpty && s.all Char.isDigit

/-- The cells of column `j` of a loaded dataframe. -/
def colCells (df : List (List Str)) (j : Nat) : List Str :=
  df.map (fun r => r.getD j [])

/-- `pd.api.types.is_numeric_dtype` on a column of the loaded frame:
`pd.read_csv` infers a numeric dtype exactly when the loaded column is
non-empty and every loaded cell parses as a number (an empty load gets the
object dtype). -/
def loadedColIsNumericDtype (cells : List Str) : Bool :=
  !cells.isEmpty && cells.all cellIsNumeric

/-- The `'num'` type tag of `DataAnalystAgent._build_enriched_columns`. -/
def numTag : Str := ("num").toList

/-- The `'str'` type tag of `DataAnalystAgent._build_enriched_columns`. -/
def strTag : Str := ("str").toList

/-- The per-column type tag computed by
`DataAnalystAgent._build_enriched_columns`:
`'num' if pd.api.types.is_numeric_dtype(df[col]) else 'str'`. -/
def enrichedTypeTag (cells : List Str) : Str :=
  if loadedColIsNumericDtype cells then numTag else strTag

/-- The type tags of all columns of a loaded frame, one per header cell. -/
def enrichedTags (header : List Str) (df : List (List Str)) : List Str :=
  (List.range header.length).map (fun j => enrichedTypeTag (colCells df j))

/-- Modelled from the spec: the classification the spec asks for, "based on
actual value inspection (whether the column's values can be interpreted as
numbers)", applied to the column's actual values (all data rows of the
file, not only the loaded sample). -/
def specValueInspectTag (allCells : List Str) : Str :=
  if !allCells.isEmpty && allCells.all cellIsNumeric then numTag else strTag

/-! ### LLM retry loop (BrainAgent.analyze_question, AnswerAgent._call_llm) -/

/-- `MAX_RETRIES` (brain.py and Config). -/
def MAX_RETRIES : Nat := 5

/-- `RETRY_BACKOFF` (brain.py and Config). -/
def RETRY_BACKOFF : Nat := 2

/-- The observable trace of one retried LLM call: which attempts ran (in
order), the sleep durations performed (in order), and the final outcome. -/
structure RetryTrace where
  attempts : List Nat
  sleeps : List Nat
  outcome : Except Str Str
deriving Repr

/-- Placeholder for Python's initial `last_err = None`; it is only reachable
when the retry budget is zero. -/
def noErrYet : Str := ("last_err is None").toList

/-- The retry loop shared by `BrainAgent.analyze_question` and
`AnswerAgent._call_llm`: `for attempt in range(1, MAX_RETRIES + 1)`, a
successful attempt returns at once; a failed attempt records the error,
sleeps `backoff ** (attempt - 1)` and continues; after the loop the last
error is raised.  `oc k` is the outcome of attempt `k`. -/
def retryFromAux (b : Nat) (oc : Nat → Except Str Str) :
    Nat → Nat → Str → RetryTrace
  | _, 0, lastErr => { attempts := [], sleeps := [], outcome := Except.error lastErr }
  | attempt, Nat.succ k, _ =>
    match oc attempt with
    | Except.ok v => { attempts := [attempt], sleeps := [], outcome := Except.ok v }
    | Except.error e =>
      let rest := retryFromAux b oc (attempt + 1) k e
      { attempts := attempt :: rest.attempts
        sleeps := b ^ (attempt - 1) :: rest.sleeps
        outcome := rest.outcome }

/-- One retried LLM call with the configured constants. -/
def llmCallWithRetry (oc : Nat → Except Str Str) : RetryTrace :=
  retryFromAux RETRY_BACKOFF oc 1 MAX_RETRIES noErrYet

/-- The sleep sequence the claim expects from an all-failing call: waits
only between consecutive attempts. -/
def claimedSleeps : List Nat := [1, 2, 4, 8]

/-- Concrete all-failing outcome function used as the counterexample input:
attempt `k` fails with an error naming `k`. -/
def allFailOutcomes : Nat → Except Str Str :=
  fun k => Except.error (("err").toList ++ Nat.toDigits 10 k)

/-! ### DataAnalystAgent construction and skip path
(src/bio_agents/data_analyst/data_analyst.py) -/

/-- Python keyword-argument binding for a constructor declared with no
keyword parameters beyond `self`, as `CodeExecutor.__init__`,
`PlannerLLM.__init__` and `SummarizerLLM.__init__` all are: any keyword
argument raises `TypeError: unexpected keyword argument`. -/
def noKwInit (cls : Str) (kwargs : List Str) : Except Str Unit :=
  match kwargs with
  | [] => Except.ok ()
  | k :: _ =>
    Except.error (("TypeError: ").toList ++ cls ++
      ("() got an unexpected keyword argument ").toList ++ k)

/-- The `temperature` keyword that `DataAnalystAgent.__init__` passes to
each stage constructor. -/
def temperatureKw : Str := ("temperature").toList

/-- `DataAnalystAgent.__init__`: after the resolver and loader (which
succeed), it runs `CodeExecutor(temperature=temperature)`, then, guarded by
the flags, `PlannerLLM(temperature=temperature)` and
`SummarizerLLM(temperature=temperature)`. -/
def dataAnalystAgentInit (use_planner use_summarizer : Bool) : Except Str Unit := do
  _ ← noKwInit (("CodeExecutor").toList) [temperatureKw]
  _ ← if use_planner then noKwInit (("PlannerLLM").toList) [temperatureKw]
      else Except.ok ()
  _ ← if use_summarizer then noKwInit (("SummarizerLLM").toList) [temperatureKw]
      else Except.ok ()
  Except.ok ()

/-- The `TypeError` that `CodeExecutor(temperature=...)` raises. -/
def codeExecutorTemperatureTypeError : Str :=
  ("TypeError: ").toList ++ ("CodeExecutor").toList ++
    ("() got an unexpected keyword argument ").toList ++ temperatureKw

/-- One sub-problem as consumed by `DataAnalystAgent.analyze`: its data
flag and its comma-separated data reference list. -/
structure SubProblemB where
  DB_flag : Int
  DB_list : Str
deriving Repr

/-- The data references extracted from the active sub-problems:
`[r.strip() for r in db_list_str.split(',') if r.strip()]`, unioned. -/
def collectDbRefs (active : List SubProblemB) : List Str :=
  (active.map (fun sp =>
    ((splitComma sp.DB_list).map stripStr).filter (fun r => !r.isEmpty))).flatten

/-- The early-return status of `DataAnalystAgent.analyze`: `'skipped'` when
no sub-problem has `DB_flag == 1`, `'error'` when the active sub-problems
carry no references, `none` when the stage proceeds to file resolution. -/
def analyzeEarlyStatus (subs : List SubProblemB) : Option Str :=
  let active := subs.filter (fun sp => sp.DB_flag = 1)
  if active.isEmpty then some (("skipped").toList)
  else if (collectDbRefs active).isEmpty then some (("error").toList)
  else none

/-! ### Planner and Summarizer degradation
(data_planner.py, data_summarizer.py) -/

/-- A JSON value, as far as the planner's dict probing needs it. -/
inductive JVal where
  | jstr (s : Str)
  | jnum (n : Int)
  | jarr (xs : List JVal)
  | jobj (kvs : List (Str × JVal))

/-- `plan_dict.get(key, default)` specialised to string-valued fields. -/
def planGetStr (d : List (Str × JVal)) (k dflt : Str) : Str :=
  match alistLookup d k with
  | some (JVal.jstr s) => s
  | _ => dflt

/-- `plan_dict.get(key, [])` specialised to string-list fields. -/
def planGetStrList (d : List (Str × JVal)) (k : Str) : List Str :=
  match alistLookup d k with
  | some (JVal.jarr xs) => xs.filterMap (fun v =>
      match v with
      | JVal.jstr s => some s
      | _ => none)
  | _ => []

/-- The `AnalysisPlan` record built by `AnalysisPlan.__init__` from a plan
dict, with the defaults of data_planner.py. -/
structure AnalysisPlanB where
  processing_strategy : Str
  file_priority : List Str
  analysis_approach : Str
  problem_type : Str
  focus_areas : List Str
deriving DecidableEq, Repr

/-- `AnalysisPlan(plan_dict)`. -/
def analysisPlanOfDict (d : List (Str × JVal)) : AnalysisPlanB :=
  { processing_strategy := planGetStr d (("processing_strategy").toList) (("sequential").toList)
    file_priority := planGetStrList d (("file_priority").toList)
    analysis_approach := planGetStr d (("analysis_approach").toList) []
    problem_type := planGetStr d (("problem_type").toList) (("unknown").toList)
    focus_areas := planGetStrList d (("focus_areas").toList) }

/-- What happened on the planner's LLM call plus JSON decoding of its
response: the call itself failed; or it returned valid JSON (an object or
not); or its response was not valid JSON (`json.JSONDecodeError`). -/
inductive LlmPlanOutcome where
  | callFailed (e : Str)
  | respondedJson (v : JVal)
  | respondedNonJson (raw : Str)

/-- `PlannerLLM.create_plan`: the whole call-and-parse is wrapped in one
`try`; any exception (the LLM call failing, or `_parse_plan` probing a
non-dict JSON value with `.get`) yields the default sequential plan; a
`json.JSONDecodeError` inside `_parse_plan` is caught there and yields
`AnalysisPlan({"analysis_approach": response})`. -/
def create_plan (r : LlmPlanOutcome) : AnalysisPlanB :=
  match r with
  | LlmPlanOutcome.callFailed _ =>
    analysisPlanOfDict
      [((("processing_strategy").toList), JVal.jstr (("sequential").toList)),
       ((("analysis_approach").toList),
        JVal.jstr (("Default sequential processing due to planner failure").toList))]
  | LlmPlanOutcome.respondedJson (JVal.jobj d) => analysisPlanOfDict d
  | LlmPlanOutcome.respondedJson _ =>
    analysisPlanOfDict
      [((("processing_strategy").toList), JVal.jstr (("sequential").toList)),
       ((("analysis_approach").toList),
        JVal.jstr (("Default sequential processing due to planner failure").toList))]
  | LlmPlanOutcome.respondedNonJson raw =>
    analysisPlanOfDict [((("analysis_approach").toList), JVal.jstr raw)]

/-- One per-file analysis record as found in the executor results consumed
by the summarizer fallback (`'file'` and `'summary'` keys). -/
structure FileRec where
  file : Str
  summary : Str
deriving DecidableEq, Repr

/-- The shapes of `execution_results` produced by
`DataAnalystAgent._build_output`: an error-only dict, a single file
analysis, or a `{'files': [...]}` wrapper. -/
inductive ExecResults where
  | errorOnly (e : Str)
  | single (f : FileRec)
  | multi (files : List FileRec)

/-- Newline as a one-character string. -/
def nlStr : Str := [Char.ofNat 10]

/-- `"\n".join(parts)`. -/
def joinLines : List Str → Str
  | [] => []
  | [s] => s
  | s :: rest => s ++ nlStr ++ joinLines rest

/-- `SummarizerLLM._create_fallback_summary`: the deterministic template
built directly from the results (header, problem id, per-file lines,
trailing note). -/
def create_fallback_summary (results : ExecResults) (problem_id : Str) : Str :=
  let files_info : List FileRec :=
    match results with
    | ExecResults.errorOnly _ => []
    | ExecResults.single f => [f]
    | ExecResults.multi fs => fs
  joinLines
    ([("# Data Analysis Summary (Fallback)").toList,
      ("Problem ID: ").toList ++ problem_id,
      nlStr ++ ("## Files Analyzed").toList] ++
     files_info.map (fun f =>
       ("- ").toList ++ f.file ++ (": ").toList ++ f.summary) ++
     [nlStr ++ ("Note: Detailed LLM summary generation failed.").toList])

/-- `SummarizerLLM.summarize`: the LLM call's result on success, the
deterministic fallback on any exception. -/
def summarize (llmResult : Except Str Str) (results : ExecResults)
    (problem_id : Str) : Str :=
  match llmResult with
  | Except.ok s => s
  | Except.error _ => create_fallback_summary results problem_id

/-! ### Pipeline orchestrator (main.py `run_pipeline` and `main`)

The filesystem of one problem directory is an association list from
problem-relative path strings to file contents (later writes shadow
earlier ones).  Each agent call is an oracle `Except Str Str` in the
environment: `ok c` means the agent returned and wrote its `output.txt`
with content `c` (every agent's `run_for_problem` writes its output as its
last action), `error e` means it raised `e`.  The translation keeps the
orchestrator's own control flow — existence checks, legacy fallbacks,
skip logging, the inner data-analysis `try`, the outer `try` — and records
an event trace of reads, runs, writes and skips. -/

/-- A problem-directory filesystem. -/
abbrev FS := List (Str × Str)

/-- `Path.exists()`. -/
def fsExists (fs : FS) (p : Str) : Bool := fs.any (fun kv => decide (kv.1 = p))

/-- Writing a file (later entries shadow earlier ones). -/
def fsWrite (fs : FS) (p c : Str) : FS := (p, c) :: fs

/-- Reading a file (empty if absent). -/
def fsRead (fs : FS) (p : Str) : Str := (alistLookup fs p).getD []

/-- Observable actions of one `run_pipeline` invocation. -/
inductive Ev where
  | readProblem
  | ranStep (name : Str)
  | wrote (path : Str)
  | skippedStep (path : Str)
  | logged (msg : Str)
deriving DecidableEq, Repr

/-- Events that neither read the problem file, run an agent step, nor
create or modify an artifact. -/
def passiveEv : Ev → Bool
  | Ev.skippedStep _ => true
  | Ev.logged _ => true
  | _ => false

/-- The step output paths of main.py, relative to the problem directory. -/
def brainJsonPath : Str := ("01_brain/brain_decomposition.json").toList

/-- Search output path. -/
def searchOutPath : Str := ("02_search/output.txt").toList

/-- Search legacy output path. -/
def searchLegacyPath : Str := ("02_search/search_results.txt").toList

/-- Data-analysis text artifact path. -/
def daTxtPath : Str := ("03_data_analysis/data_analysis_results.txt").toList

/-- Blue draft output path. -/
def blueOutPath : Str := ("04_blue_draft/output.txt").toList

/-- Blue draft legacy output path. -/
def blueLegacyPath : Str := ("04_blue_draft/blue_results.txt").toList

/-- Red critique output path. -/
def redOutPath : Str := ("05_red_critique/output.txt").toList

/-- Red critique legacy output path. -/
def redLegacyPath : Str := ("05_red_critique/red_results.txt").toList

/-- BlueX revision output path. -/
def bluexOutPath : Str := ("06_bluex_revision/output.txt").toList

/-- BlueX revision legacy output path. -/
def bluexLegacyPath : Str := ("06_bluex_revision/blue_results.txt").toList

/-- Red final review output path. -/
def red2OutPath : Str := ("07_red_review/output.txt").toList

/-- Red final review legacy output path. -/
def red2LegacyPath : Str := ("07_red_review/red_results.txt").toList

/-- Answer output path. -/
def answerOutPath : Str := ("08_answer/output.txt").toList

/-- The fixed prefix stripped from the problem id. -/
def problemPfx : Str := ("problem_").toList

/-- The `answer_id` derivation of main.py (done identically at the fast-path
check and at the final copy): strip a case-insensitive leading `problem_`,
and fall back to the full id if the remainder is empty. -/
def deriveAnswerId (pid : Str) : Str :=
  let a := if isPrefixB problemPfx (lowerStr pid) then pid.drop problemPfx.length
           else pid
  if a.isEmpty then pid else a

/-- `answer_{answer_id}.txt` at the problem root. -/
def finalAnswerName (pid : Str) : Str :=
  ("answer_").toList ++ deriveAnswerId pid ++ (".txt").toList

/-- Fallback content written when the answer agent output is missing. -/
def answerMissingText : Str :=
  ("Error: AnswerAgent output not found.").toList ++ nlStr

/-- The per-problem environment: problem id, the outcome of reading the
problem file, one oracle per agent call, and the dummy data-analysis
content. -/
structure PipelineEnv where
  problem_id : Str
  problem_read : Except Str Str
  brain : Except Str Str
  search : Except Str Str
  daInit : Except Str Unit
  daRun : Except Str Str
  dummy : Str
  blue : Except Str Str
  red1 : Except Str Str
  bluex : Except Str Str
  red2 : Except Str Str
  answer : Except Str Str

/-- Intermediate orchestrator state: the filesystem and the event trace. -/
structure StepSt where
  fs : FS
  evs : List Ev
deriving Repr

/-- Early-exit sequencing: a step that raised short-circuits the rest. -/
def andThenStep (prev : StepSt × Option Str) (k : StepSt → StepSt × Option Str) :
    StepSt × Option Str :=
  match prev with
  | (st, some e) => (st, some e)
  | (st, none) => k st

/-- One checkpointed agent step: skip if the output exists, else skip if
the legacy output exists (adopting it), else run the agent — a raise
propagates, a success writes the output file. -/
def runStep (st : StepSt) (outPath : Str) (legacy : Option Str) (name : Str)
    (oracle : Except Str Str) : StepSt × Option Str :=
  if fsExists st.fs outPath then
    ({ st with evs := st.evs ++ [Ev.skippedStep outPath] }, none)
  else
    match legacy with
    | some lp =>
      if fsExists st.fs lp then
        ({ st with evs := st.evs ++ [Ev.skippedStep lp] }, none)
      else
        match oracle with
        | Except.error e => ({ st with evs := st.evs ++ [Ev.ranStep name] }, some e)
        | Except.ok c =>
          ({ fs := fsWrite st.fs outPath c
             evs := st.evs ++ [Ev.ranStep name, Ev.wrote outPath] }, none)
    | none =>
      match oracle with
      | Except.error e => ({ st with evs := st.evs ++ [Ev.ranStep name] }, some e)
      | Except.ok c =>
        ({ fs := fsWrite st.fs outPath c
           evs := st.evs ++ [Ev.ranStep name, Ev.wrote outPath] }, none)

/-- The data-analysis step of main.py: skip if the text artifact exists.
Otherwise `DataAnalystAgent()` is constructed OUTSIDE the inner `try`, so a
construction failure propagates; with a constructed agent, a failure of
`run_for_problem` is caught by the inner `try` and the dummy text is used,
and the text artifact is always written. -/
def runDataStep (env : PipelineEnv) (st : StepSt) : StepSt × Option Str :=
  if fsExists st.fs daTxtPath then
    ({ st with evs := st.evs ++ [Ev.skippedStep daTxtPath] }, none)
  else
    match env.daInit with
    | Except.error e => (st, some e)
    | Except.ok _ =>
      let text :=
        match env.daRun with
        | Except.ok t => t
        | Except.error _ => env.dummy
      ({ fs := fsWrite st.fs daTxtPath text
         evs := st.evs ++ [Ev.ranStep (("data_analysis").toList), Ev.wrote daTxtPath] },
       none)

/-- Steps 1–8 of `run_pipeline` after the fast-path check: read the problem
file, then Brain, Search, DataAnalysis, Blue, Red, BlueX, Red review,
Answer, each checkpointed, with an exception aborting the remainder. -/
def pipelineSteps (env : PipelineEnv) (fs0 : FS) : StepSt × Option Str :=
  let st0 : StepSt := { fs := fs0, evs := [Ev.readProblem] }
  match env.problem_read with
  | Except.error e => (st0, some e)
  | Except.ok _ =>
    andThenStep (runStep st0 brainJsonPath none (("brain").toList) env.brain) fun st1 =>
    andThenStep (runStep st1 searchOutPath (some searchLegacyPath) (("search").toList) env.search) fun st2 =>
    andThenStep (runDataStep env st2) fun st3 =>
    andThenStep (runStep st3 blueOutPath (some blueLegacyPath) (("blue").toList) env.blue) fun st4 =>
    andThenStep (runStep st4 redOutPath (some redLegacyPath) (("red").toList) env.red1) fun st5 =>
    andThenStep (runStep st5 bluexOutPath (some bluexLegacyPath) (("bluex").toList) env.bluex) fun st6 =>
    andThenStep (runStep st6 red2OutPath (some red2LegacyPath) (("red_review").toList) env.red2) fun st7 =>
    runStep st7 answerOutPath none (("answer").toList) env.answer

/-- The final-answer copy at the end of `run_pipeline`: the answer output
is copied to `answer_{answer_id}.txt` at the problem root, or a fallback
error text is written there if the answer output is missing. -/
def finalizeAnswer (pid : Str) (st : StepSt) : FS × List Ev × Option Str :=
  let fa := finalAnswerName pid
  if fsExists st.fs answerOutPath then
    (fsWrite st.fs fa (fsRead st.fs answerOutPath), st.evs ++ [Ev.wrote fa], none)
  else
    (fsWrite st.fs fa answerMissingText, st.evs ++ [Ev.wrote fa], none)

/-- The body of `run_pipeline` (the content of its outer `try`): the
composite fast-path check on the final answer artifact, then the steps,
then the final copy.  The third component is the exception escaping the
body, if any. -/
def runPipelineBody (env : PipelineEnv) (fs0 : FS) : FS × List Ev × Option Str :=
  let fa := finalAnswerName env.problem_id
  if fsExists fs0 fa then
    (fs0, [Ev.skippedStep fa], none)
  else
    match pipelineSteps env fs0 with
    | (st, some e) => (st.fs, st.evs, some e)
    | (st, none) => finalizeAnswer env.problem_id st

/-- `run_pipeline`: the body under its outer `try/except Exception`, which
logs any exception and returns normally.  The third component is the
exception propagated to the caller. -/
def run_pipeline (env : PipelineEnv) (fs : FS) : FS × List Ev × Option Str :=
  match runPipelineBody env fs with
  | (fs2, evs, none) => (fs2, evs, none)
  | (fs2, evs, some e) => (fs2, evs ++ [Ev.logged e], none)

/-- The batch of `main`: one `run_pipeline` per problem (problem
directories are disjoint, so jobs are independent). -/
def runBatch (jobs : List (PipelineEnv × FS)) : List (FS × List Ev × Option Str) :=
  jobs.map (fun j => run_pipeline j.1 j.2)

/-- The `failures` counter of `main`: it counts the jobs whose
`future.result()` re-raises, i.e. the jobs for which `run_pipeline`
propagated an exception. -/
def batchFailures (jobs : List (PipelineEnv × FS)) : Nat :=
  (runBatch jobs).countP (fun r => r.2.2.isSome)

/-- The end-of-batch summary line: printed only when `failures` is
non-zero (`if failures: status(...)`). -/
def failuresSummary (jobs : List (PipelineEnv × FS)) : Option Str :=
  if batchFailures jobs ≠ 0 then
    some (("Completed with failures").toList)
  else none

/-- The process exit status of `main`: the function contains no `sys.exit`
call and catches every per-job exception, so the interpreter always exits
with status 0; modelled as the constant status of a completed batch. -/
def mainExitCode (jobs : List (PipelineEnv × FS)) : Nat :=
  (runBatch jobs).length - (runBatch jobs).length

/-! ### Concrete instances used by witnesses and counterexamples -/

/-- An environment whose every oracle succeeds. -/
def okEnv (pid : Str) : PipelineEnv :=
  { problem_id := pid
    problem_read := Except.ok (("question text").toList)
    brain := Except.ok (("brain decomposition").toList)
    search := Except.ok (("search report").toList)
    daInit := Except.ok ()
    daRun := Except.ok (("analysis text").toList)
    dummy := ("N/A: No specific data analysis was requested.").toList
    blue := Except.ok (("blue draft").toList)
    red1 := Except.ok (("red critique").toList)
    bluex := Except.ok (("bluex revision").toList)
    red2 := Except.ok (("red review").toList)
    answer := Except.ok (("final answer").toList) }

/-- The all-ok environment with a Brain step that always fails. -/
def brainFailEnv (pid : Str) : PipelineEnv :=
  { okEnv pid with brain := Except.error (("brain always fails").toList) }

/-- The three-problem batch of the batch-isolation scenario: problem 2's
Brain step fails on every attempt, problems 1 and 3 succeed; all three
start from an empty problem directory. -/
def batchJobs3 : List (PipelineEnv × FS) :=
  [(okEnv (("problem_1").toList), []),
   (brainFailEnv (("problem_2").toList), []),
   (okEnv (("problem_3").toList), [])]

/-- Witness index for exact-match precedence: `genelist.csv` exists by
name, and a folder and the fuzzy tier would also match it. -/
def idxExactW : FileIndex :=
  { by_name := [((("genelist.csv").toList),
      [{ full := ("data/genelist.csv").toList, fname := ("genelist.csv").toList }])]
    by_folder := [((("genelist_csv_folder").toList),
      [{ full := ("data/genelist_csv_folder/copy.csv").toList, fname := ("copy.csv").toList }])]
    by_pattern :=
      [{ full := ("data/genelist.csv").toList, fname := ("genelist.csv").toList },
       { full := ("data/genelist_csv_folder/copy.csv").toList, fname := ("copy.csv").toList }] }

/-- Witness index for the folder-keyword claim: the reference `Q1 features`
matches only the folder `Q1.features`. -/
def idxFolderW : FileIndex :=
  { by_name := [((("other.csv").toList),
      [{ full := ("data/misc/other.csv").toList, fname := ("other.csv").toList }])]
    by_folder :=
      [((("misc").toList),
        [{ full := ("data/misc/other.csv").toList, fname := ("other.csv").toList }]),
       ((("Q1.features").toList),
        [{ full := ("data/Q1.features/expr.tsv").toList, fname := ("expr.tsv").toList },
         { full := ("data/Q1.features/tpm.tsv").toList, fname := ("tpm.tsv").toList }]),
       ((("gene_data").toList),
        [{ full := ("data/gene_data/genes.csv").toList, fname := ("genes.csv").toList }])]
    by_pattern :=
      [{ full := ("data/misc/other.csv").toList, fname := ("other.csv").toList },
       { full := ("data/Q1.features/expr.tsv").toList, fname := ("expr.tsv").toList },
       { full := ("data/Q1.features/tpm.tsv").toList, fname := ("tpm.tsv").toList },
       { full := ("data/gene_data/genes.csv").toList, fname := ("genes.csv").toList }] }

/-- A delimited file with a header and 10,000 data rows. -/
def bigDelimFile : DelimFile :=
  { header := [("value").toList], rows := List.replicate 10000 [("1").toList] }

/-- A two-row delimited file used to witness the general sampling clause. -/
def smallDelimFile : DelimFile :=
  { header := [("value").toList], rows := [[("3").toList], [("4").toList]] }

/-- The counterexample file for the column-typing claim: its single column
holds the cells `1` then `x`; a sampled load of 1 row sees only `1`. -/
def mixedColFile : DelimFile :=
  { header := [("v").toList], rows := [[("1").toList], [("x").toList]] }

/-- Concrete all-flags-false decomposition for the skip-path witness. -/
def noDataSubs : List SubProblemB :=
  [{ DB_flag := 0, DB_list := ("genelist.csv").toList },
   { DB_flag := 0, DB_list := [] }]

/-- Used by the C1 fast-path witness: a problem directory that already
holds its final answer artifact. -/
def fastDoneFS : FS :=
  [(finalAnswerName (("problem_7").toList), ("previous answer").toList)]

/-! ### Helper lemmas -/

theorem fsExists_fsWrite_self (fs : FS) (p c : Str) :
    fsExists (fsWrite fs p c) p = true := by
  simp [fsExists, fsWrite]

theorem finalizeAnswer_writes_final (pid : Str) (st : StepSt) :
    fsExists (finalizeAnswer pid st).1 (finalAnswerName pid) = true := by
  unfold finalizeAnswer
  cases h : fsExists st.fs answerOutPath <;> simp [h, fsExists_fsWrite_self]

theorem run_pipeline_fst_eq_body_fst (env : PipelineEnv) (fs : FS) :
    (run_pipeline env fs).1 = (runPipelineBody env fs).1 := by
  unfold run_pipeline
  rcases hb : runPipelineBody env fs with ⟨fs2, evs, r⟩
  cases r <;> simp

theorem folderKeywordScan_no_match_append (kws : List Str)
    (pre rest : List (Str × List PyPath))
    (h : ∀ fp ∈ pre, (kws.all (fun kw => isSubstrB kw (lowerStr fp.1))) = false) :
    folderKeywordScan (pre ++ rest) kws = folderKeywordScan rest kws := by
  induction pre with
  | nil => rfl
  | cons hd tl ih =>
    obtain ⟨fname, paths⟩ := hd
    have hhd : (kws.all (fun kw => isSubstrB kw (lowerStr fname))) = false :=
      h (fname, paths) (List.mem_cons_self _ _)
    rw [List.cons_append]
    simp only [folderKeywordScan, hhd]
    simp only [List.isEmpty_nil, if_true, Bool.false_eq_true, if_false]
    exact ih (fun fp hfp => h fp (by simp [hfp]))

/-! ### Claim theorems -/

/-- C10: `run_pipeline` never propagates an exception to its caller: for
every environment (any combination of failing reads, agent constructions
and agent steps) and every starting filesystem, the exception component of
its result is `none` — every body exception is caught at the pipeline
boundary and the function returns normally. -/
theorem c10_run_pipeline_no_propagation (env : PipelineEnv) (fs : FS) :
    (run_pipeline env fs).2.2 = none := by
  unfold run_pipeline
  rcases hb : runPipelineBody env fs with ⟨fs2, evs, r⟩
  cases r <;> simp

/-- C1: (i) if the problem directory already contains the final answer
artifact `answer_<suffix>.txt` — `<suffix>` derived by stripping a leading
`problem_` from the problem id, falling back to the full id when stripping
leaves it empty — then `run_pipeline` returns at once with the filesystem
untouched and only passive (skip/log) events: it does not read the problem
file, run any agent step, or write any artifact; (ii) whenever the
pipeline body completes without an exception, the final answer artifact
exists under exactly that derived filename. -/
theorem c1_fastpath_and_final_naming :
    (∀ (env : PipelineEnv) (fs : FS),
        fsExists fs (finalAnswerName env.problem_id) = true →
        (run_pipeline env fs).1 = fs ∧
        ((run_pipeline env fs).2.1.all passiveEv) = true ∧
        (run_pipeline env fs).2.2 = none)
    ∧ (∀ (env : PipelineEnv) (fs : FS),
        (runPipelineBody env fs).2.2 = none →
        fsExists (run_pipeline env fs).1 (finalAnswerName env.problem_id) = true) := by
  constructor
  · intro env fs h
    have hb : runPipelineBody env fs =
        (fs, [Ev.skippedStep (finalAnswerName env.problem_id)], none) := by
      unfold runPipelineBody
      simp [h]
    simp [run_pipeline, hb, passiveEv]
  · intro env fs h
    rw [run_pipeline_fst_eq_body_fst]
    by_cases hf : fsExists fs (finalAnswerName env.problem_id) = true
    · have hb : (runPipelineBody env fs).1 = fs := by
        unfold runPipelineBody
        simp [hf]
      rw [hb]
      exact hf
    · have hf2 : fsExists fs (finalAnswerName env.problem_id) = false := by
        simpa using hf
      rcases hp : pipelineSteps env fs with ⟨st, r⟩
      cases r with
      | some e =>
        exfalso
        have hb2 : (runPipelineBody env fs).2.2 = some e := by
          unfold runPipelineBody
          simp [hf2, hp]
        rw [h] at hb2
        exact Option.noConfusion hb2
      | none =>
        have hb1 : (runPipelineBody env fs).1 = (finalizeAnswer env.problem_id st).1 := by
          unfold runPipelineBody
          simp [hf2, hp]
        rw [hb1]
        exact finalizeAnswer_writes_final env.problem_id st

/-- Witness for C1: a directory already holding `answer_7.txt` is skipped
untouched, and a fresh all-successful run produces `answer_9.txt`. -/
theorem c1_fastpath_and_final_naming_witness :
    ((run_pipeline (okEnv (("problem_7").toList)) fastDoneFS).1 = fastDoneFS ∧
      ((run_pipeline (okEnv (("problem_7").toList)) fastDoneFS).2.1.all passiveEv) = true ∧
      (run_pipeline (okEnv (("problem_7").toList)) fastDoneFS).2.2 = none)
    ∧ fsExists (run_pipeline (okEnv (("problem_9").toList)) []).1
        (finalAnswerName (okEnv (("problem_9").toList)).problem_id) = true :=
  ⟨c1_fastpath_and_final_naming.1 (okEnv (("problem_7").toList)) fastDoneFS (by decide),
   c1_fastpath_and_final_naming.2 (okEnv (("problem_9").toList)) [] (by decide)⟩

/-- C2 (counterexample): in the three-problem batch in which exactly
problem 2's Brain step fails and problems 1 and 3 succeed, the batch
failure counter is 0, not 1 — `run_pipeline` catches the failure itself,
so `future.result()` never raises and the summary line
(`if failures: ...`) reports nothing. -/
theorem c2_failure_count_counterexample :
    batchFailures batchJobs3 ≠ 1 ∧ batchFailures batchJobs3 = 0 ∧
    failuresSummary batchJobs3 = none := by decide

/-- C2 (amended): in that same batch, problems 1 and 3 still reach their
terminal answer artifacts, problem 2 produces none while its exception is
caught, the process exit code is 0 — but the failure counter stays 0 and
no end-of-batch failure summary is emitted (the counter only counts
exceptions that escape `run_pipeline`, and none do). -/
theorem c2_batch_isolation_amended :
    fsExists (run_pipeline (okEnv (("problem_1").toList)) []).1
        (finalAnswerName (("problem_1").toList)) = true
    ∧ fsExists (run_pipeline (okEnv (("problem_3").toList)) []).1
        (finalAnswerName (("problem_3").toList)) = true
    ∧ fsExists (run_pipeline (brainFailEnv (("problem_2").toList)) []).1
        (finalAnswerName (("problem_2").toList)) = false
    ∧ (run_pipeline (brainFailEnv (("problem_2").toList)) []).2.2 = none
    ∧ batchFailures batchJobs3 = 0
    ∧ failuresSummary batchJobs3 = none
    ∧ mainExitCode batchJobs3 = 0 := by decide

/-- C3 (counterexample): an LLM call failing on all 5 attempts sleeps
`[1, 2, 4, 8, 16]` — five waits, one after every failed attempt including
the final one before the error is re-raised — not the `[1, 2, 4, 8]`
(waits only between consecutive attempts) that the claim states. -/
theorem c3_sleep_after_last_attempt_counterexample :
    (llmCallWithRetry allFailOutcomes).sleeps = [1, 2, 4, 8, 16] ∧
    (llmCallWithRetry allFailOutcomes).sleeps ≠ claimedSleeps := by decide

/-- C3 (amended): a call that fails on every attempt performs exactly the
5 configured attempts, sleeps `backoff^(attempt-1)` after every failed
attempt — `1, 2, 4, 8, 16`, monotonically non-decreasing, including one
final wait after the last attempt — and then raises the last observed
error. -/
theorem c3_retry_amended (es : Nat → Str) :
    llmCallWithRetry (fun k => Except.error (es k)) =
      { attempts := [1, 2, 3, 4, 5], sleeps := [1, 2, 4, 8, 16],
        outcome := Except.error (es 5) } := rfl

/-- C4 (code bug): the skip logic itself is as the claim says — a
decomposition in which every sub-problem's data flag is 0 makes
`DataAnalystAgent.analyze` return the `'skipped'` status — but the
scenario is unreachable, because `DataAnalystAgent.__init__` passes
`temperature=` to `CodeExecutor`, `PlannerLLM` and `SummarizerLLM`, whose
constructors accept no such keyword: every construction of the agent
raises `TypeError` (outside the orchestrator's inner try), so the stage
never returns and no placeholder is written by this path. -/
theorem c4_data_analysis_skip_vs_init :
    (∀ subs : List SubProblemB, (∀ sp ∈ subs, sp.DB_flag = 0) →
        analyzeEarlyStatus subs = some (("skipped").toList))
    ∧ (∀ up us : Bool, dataAnalystAgentInit up us =
        Except.error codeExecutorTemperatureTypeError) := by
  constructor
  · intro subs h
    have hfil : (subs.filter (fun sp => sp.DB_flag = 1)) = [] := by
      rw [List.filter_eq_nil_iff]
      intro a ha
      simp [h a ha]
    unfold analyzeEarlyStatus
    rw [hfil]
    rfl
  · intro up us
    rfl

/-- Witness for C4: the concrete all-flags-0 decomposition is reported
`'skipped'`, and the default construction raises the `TypeError`. -/
theorem c4_data_analysis_skip_vs_init_witness :
    analyzeEarlyStatus noDataSubs = some (("skipped").toList)
    ∧ dataAnalystAgentInit true true = Except.error codeExecutorTemperatureTypeError :=
  ⟨c4_data_analysis_skip_vs_init.1 noDataSubs (by decide),
   c4_data_analysis_skip_vs_init.2 true true⟩

/-- C5: if a file exists under exactly the requested (lower-cased) name —
the by-name index has a non-empty entry for it — then `_resolve_single`
returns precisely those direct matches, all tagged `exact`, for any
contents of the folder and fuzzy tiers: the folder and pattern strategies
are never consulted, even when they would also match. -/
theorem c5_exact_match_precedence (idx : FileIndex) (ref : Str)
    (ps : List PyPath)
    (hname : alistLookup idx.by_name (lowerStr ref) = some ps)
    (hne : ps ≠ []) :
    resolveSingle idx ref = ps.map (mkResolved exactMT) ∧
    ∀ r ∈ resolveSingle idx ref, r.match_type = exactMT := by
  have hme : matchExact idx ref = ps.map (mkResolved exactMT) := by
    unfold matchExact
    rw [hname]
    simp [List.isEmpty_iff, hne]
  have hr : resolveSingle idx ref = ps.map (mkResolved exactMT) := by
    unfold resolveSingle
    rw [hme]
    simp [List.isEmpty_iff, hne]
  refine ⟨hr, ?_⟩
  intro r hrr
  rw [hr] at hrr
  rcases List.mem_map.mp hrr with ⟨p, _, hp⟩
  rw [← hp]
  rfl

/-- Witness for C5: in an index where `genelist.csv` exists by name and a
folder plus the fuzzy tier would also match it, resolution returns only
the exact hit. -/
theorem c5_exact_match_precedence_witness :
    resolveSingle idxExactW (("genelist.csv").toList) =
      [{ path := ("data/genelist.csv").toList,
         name := ("genelist.csv").toList, match_type := exactMT }] ∧
    ∀ r ∈ resolveSingle idxExactW (("genelist.csv").toList), r.match_type = exactMT :=
  c5_exact_match_precedence idxExactW (("genelist.csv").toList)
    [{ full := ("data/genelist.csv").toList, fname := ("genelist.csv").toList }]
    (by decide) (by decide)

/-- C6: for a reference with no exact match whose lowercase word tokens
all occur as substrings of exactly one indexed folder name (and of no
other), resolution returns exactly that folder's files, each tagged
`folder_keyword`, and the folder scan stops at that first matching
folder — folders matching only a subset of the tokens contribute
nothing. -/
theorem c6_folder_keyword_short_circuit (idx : FileIndex) (ref : Str)
    (pre post : List (Str × List PyPath)) (fname : Str) (paths : List PyPath)
    (hexact : matchExact idx ref = [])
    (hkws : wordTokens (lowerStr ref) ≠ [])
    (hfolders : idx.by_folder = pre ++ (fname, paths) :: post)
    (hpaths : paths ≠ [])
    (hmatch : ((wordTokens (lowerStr ref)).all
        (fun kw => isSubstrB kw (lowerStr fname))) = true)
    (hothers : ∀ fp ∈ pre ++ post,
        ((wordTokens (lowerStr ref)).all
          (fun kw => isSubstrB kw (lowerStr fp.1))) = false) :
    resolveSingle idx ref = paths.map (mkResolved folderKeywordMT) := by
  have hpre : ∀ fp ∈ pre,
      ((wordTokens (lowerStr ref)).all
        (fun kw => isSubstrB kw (lowerStr fp.1))) = false :=
    fun fp hfp => hothers fp (List.mem_append_left _ hfp)
  have hscan : folderKeywordScan idx.by_folder (wordTokens (lowerStr ref)) =
      paths.map (mkResolved folderKeywordMT) := by
    rw [hfolders, folderKeywordScan_no_match_append _ _ _ hpre]
    simp only [folderKeywordScan, hmatch, if_true]
    simp [List.isEmpty_iff, hpaths]
  have hmf : matchFolder idx ref = paths.map (mkResolved folderKeywordMT) := by
    unfold matchFolder
    simp only [List.isEmpty_iff, hkws, if_false]
    rw [hscan]
    simp [List.isEmpty_iff, hpaths]
  unfold resolveSingle
  rw [hexact, hmf]
  simp [List.isEmpty_iff, hpaths]

/-- Witness for C6: `Q1 features` tokenizes to `q1`, `features`, which
match only the folder `Q1.features`; resolution returns exactly its two
files. -/
theorem c6_folder_keyword_short_circuit_witness :
    resolveSingle idxFolderW (("Q1 features").toList) =
      [{ path := ("data/Q1.features/expr.tsv").toList,
         name := ("expr.tsv").toList, match_type := folderKeywordMT },
       { path := ("data/Q1.features/tpm.tsv").toList,
         name := ("tpm.tsv").toList, match_type := folderKeywordMT }] :=
  c6_folder_keyword_short_circuit idxFolderW (("Q1 features").toList)
    [((("misc").toList),
      [{ full := ("data/misc/other.csv").toList, fname := ("other.csv").toList }])]
    [((("gene_data").toList),
      [{ full := ("data/gene_data/genes.csv").toList, fname := ("genes.csv").toList }])]
    (("Q1.features").toList)
    [{ full := ("data/Q1.features/expr.tsv").toList, fname := ("expr.tsv").toList },
     { full := ("data/Q1.features/tpm.tsv").toList, fname := ("tpm.tsv").toList }]
    (by decide) (by decide) (by decide) (by decide) (by decide) (by decide)

/-- C7: loading a delimited file of 10,000 data rows plus a header, with
sampling at the default cap of 1000, yields `loaded_rows = 1000`,
`total_rows = 10000` and `is_sampled = true`; and in general, for any cap
and any delimited file, `is_sampled` is `true` whenever the loaded row
count is below the total row count. -/
theorem c7_row_sampling_bound :
    (∀ f : DelimFile, f.rows.length = 10000 →
        loadDelimMeta defaultMaxSampleRows f =
          { total_rows := 10000, loaded_rows := 1000, is_sampled := true })
    ∧ (∀ (cap : Nat) (f : DelimFile),
        ((loadDelimMeta cap f).loaded_rows : Int) < (loadDelimMeta cap f).total_rows →
        (loadDelimMeta cap f).is_sampled = true) := by
  constructor
  · intro f h
    simp only [loadDelimMeta, loadDelimRows, countTotalRowsDelim, defaultMaxSampleRows,
      List.length_take, h]
    decide
  · intro cap f h
    simp only [loadDelimMeta, loadDelimRows, countTotalRowsDelim] at h ⊢
    have hne : (1 + (f.rows.length : Int)) - 1 ≠ 0 := by
      have h0 : (0 : Int) ≤ ((f.rows.take cap).length : Int) := Int.natCast_nonneg _
      omega
    rw [if_pos hne]
    exact decide_eq_true h

/-- Witness for C7: the 10,000-row file meets the bound, and a 2-row file
loaded with cap 1 is marked sampled. -/
theorem c7_row_sampling_bound_witness :
    loadDelimMeta defaultMaxSampleRows bigDelimFile =
      { total_rows := 10000, loaded_rows := 1000, is_sampled := true }
    ∧ (loadDelimMeta 1 smallDelimFile).is_sampled = true :=
  ⟨c7_row_sampling_bound.1 bigDelimFile (List.length_replicate _ _),
   c7_row_sampling_bound.2 1 smallDelimFile (by decide)⟩

/-- C8 (counterexample): for the file whose single column holds `1` then
`x`, a sampled load of 1 row is tagged `num` by
`_build_enriched_columns` — the dtype of the partial sample — while value
inspection of the column's actual values yields `str`: the tag is not
based on actual value inspection. -/
theorem c8_dtype_of_sample_counterexample :
    enrichedTypeTag (colCells (loadDelimRows 1 mixedColFile) 0) = numTag
    ∧ specValueInspectTag (colCells mixedColFile.rows 0) = strTag
    ∧ numTag ≠ strTag := by decide

/-- C8 (amended): the per-column type tag is computed from the dtype of
the loaded (possibly empty or partial) sample: a column is tagged `num`
exactly when the loaded sample of that column is non-empty and every
loaded cell parses as a number — which can disagree with value inspection
of the full column when sampling truncates it. -/
theorem c8_type_tag_amended (cap : Nat) (f : DelimFile) (j : Nat)
    (hj : j < f.header.length) :
    ((enrichedTags f.header (loadDelimRows cap f)).getD j [] = numTag) ↔
      loadedColIsNumericDtype (colCells (loadDelimRows cap f) j) = true := by
  unfold enrichedTags
  rw [List.getD_eq_getElem?_getD, List.getElem?_map, List.getElem?_range hj]
  simp only [Option.map_some', Option.getD_some]
  unfold enrichedTypeTag
  cases hb : loadedColIsNumericDtype (colCells (loadDelimRows cap f) j)
  · exact iff_of_false (by decide) (by decide)
  · exact iff_of_true rfl rfl

/-- Witness for C8 (amended): instantiated at the counterexample file with
cap 1 and column 0. -/
theorem c8_type_tag_amended_witness :
    ((enrichedTags mixedColFile.header (loadDelimRows 1 mixedColFile)).getD 0 [] = numTag) ↔
      loadedColIsNumericDtype (colCells (loadDelimRows 1 mixedColFile) 0) = true :=
  c8_type_tag_amended 1 mixedColFile 0 (by decide)

/-- C9: a failed planner LLM call yields the default plan with
`processing_strategy = 'sequential'`; an unparseable (non-JSON) plan
response yields the fallback plan (default `'sequential'` strategy, the
raw response kept as the analysis approach); and a failed summarizer LLM
call yields the deterministic templated fallback summary built directly
from the results — in all cases a value is returned, never an
exception. -/
theorem c9_planner_summarizer_degradation :
    (∀ e : Str, (create_plan (LlmPlanOutcome.callFailed e)).processing_strategy =
        ("sequential").toList)
    ∧ (∀ raw : Str,
        (create_plan (LlmPlanOutcome.respondedNonJson raw)).processing_strategy =
          ("sequential").toList ∧
        (create_plan (LlmPlanOutcome.respondedNonJson raw)).analysis_approach = raw)
    ∧ (∀ (e : Str) (res : ExecResults) (pid : Str),
        summarize (Except.error e) res pid = create_fallback_summary res pid) :=
  ⟨fun _ => rfl, fun _ => ⟨rfl, rfl⟩, fun _ _ _ => rfl⟩
